import Mathlib

/-!
Verification of the sparkline code-generation engine
(`planning/sparkline_point.py`) against its specification.

The Python function `sparkline_point_js` and its inner helper `to_rgba`
are shallowly embedded below.  Numeric data values are modelled with
rationals (`ℚ`); Python string primitives (`str.strip`, `str.lower`,
`int(s, 16)`) are modelled at the character level for ASCII input, and
theorems that quantify over arbitrary descriptor strings carry an
explicit ASCII hypothesis where those primitives are involved.
The template file `sparkline.js` is not part of the sources; it is
modelled from the specification (see `sparklineTemplate`).
-/

namespace PyForestly

/-! ## Character-level models of the Python string primitives -/

/-- Whitespace characters stripped by `str.strip()` and tolerated by
`int(s, 16)` (ASCII range: TAB, LF, VT, FF, CR, FS, GS, RS, US, SPACE). -/
def isPyWs (c : Char) : Bool :=
  c.toNat = 9 || c.toNat = 10 || c.toNat = 11 || c.toNat = 12 || c.toNat = 13 ||
  c.toNat = 28 || c.toNat = 29 || c.toNat = 30 || c.toNat = 31 || c.toNat = 32

/-- Hexadecimal digit test (`0-9`, `a-f`, `A-F`). -/
def isHexDigit (c : Char) : Bool :=
  (48 ≤ c.toNat && c.toNat ≤ 57) || (97 ≤ c.toNat && c.toNat ≤ 102) ||
  (65 ≤ c.toNat && c.toNat ≤ 70)

/-- Value of a hexadecimal digit. -/
def hexVal (c : Char) : Nat :=
  if 48 ≤ c.toNat && c.toNat ≤ 57 then c.toNat - 48
  else if 97 ≤ c.toNat && c.toNat ≤ 102 then c.toNat - 87
  else if 65 ≤ c.toNat && c.toNat ≤ 70 then c.toNat - 55
  else 0

/-- Model of Python `str.strip()` on a character list. -/
def pyStripL (l : List Char) : List Char :=
  ((l.dropWhile isPyWs).reverse.dropWhile isPyWs).reverse

/-- Model of Python `str.lower()` (ASCII letters). -/
def pyLowerL (l : List Char) : List Char :=
  l.map Char.toLower

/-- Model of Python `int(s, 16)` restricted to two-character strings, which
is the only way `to_rgba` invokes it (every slice `hex_str[k:k+2]` of the
six-character `hex_str` has exactly two characters).  For two characters
the accepted forms are: two hex digits; a sign followed by a hex digit;
a whitespace character next to a hex digit. -/
def pyInt16two (a b : Char) : Option Int :=
  if isHexDigit a && isHexDigit b then some (16 * (hexVal a : Int) + hexVal b)
  else if a = '+' && isHexDigit b then some (hexVal b)
  else if a = '-' && isHexDigit b then some (-(hexVal b : Int))
  else if isPyWs a && isHexDigit b then some (hexVal b)
  else if isHexDigit a && isPyWs b then some (hexVal a)
  else none

/-- Line 148-149: a three-character hex body has every character doubled. -/
def dup3 (l : List Char) : List Char :=
  if l.length = 3 then l.flatMap (fun c => [c, c]) else l

/-- Lines 150-153: parse a six-character hex body into the three
two-digit groups; any other length or any failing group parse yields
`none` (the Python `ValueError` caught at line 155). -/
def hexParse (l : List Char) : Option (Int × Int × Int) :=
  match l with
  | [a, b, c, d, e, f] =>
    match pyInt16two a b, pyInt16two c d, pyInt16two e f with
    | some r, some g, some bl => some (r, g, bl)
    | _, _, _ => none
  | _ => none

/-- Line 159: `color_str.lower().startswith("rgb")`. -/
def rgbTest (cs : List Char) : Bool :=
  match pyLowerL cs with
  | a :: b :: c :: _ => a == 'r' && b == 'g' && c == 'b'
  | _ => false

/-- Lines 144-156: the hex branch of `to_rgba` (`startswith("#")` and the
guarded parse); `none` means fall through to the non-hex branches. -/
def hexTry (cs : List Char) : Option String :=
  match cs with
  | [] => none
  | c :: hex0 =>
    if c = '#' then
      match hexParse (dup3 hex0) with
      | some (r, g, b) =>
        some ("\"rgba(" ++ toString r ++ ", " ++ toString g ++ ", " ++
              toString b ++ ", 1)\"")
      | none => none
    else none

/-- Lines 138-164: `to_rgba`.  Note that the rgb branch (line 161) quotes
the *stripped* string `color_str` while the final passthrough (line 164)
quotes the original `color_name`. -/
def to_rgba (color_name : String) : String :=
  let cs := pyStripL color_name.toList
  match hexTry cs with
  | some s => s
  | none =>
    if rgbTest cs then "\"" ++ String.mk cs ++ "\""
    else "\"" ++ color_name ++ "\""

/-! ## Data model -/

/-- A Polars dataframe, reduced to what the engine consults: named columns
of nullable numeric values (modelled as rationals). -/
structure DataFrame where
  cols : List (String × List (Option ℚ))
deriving DecidableEq

/-- `tbl.columns`: the schema, in column order. -/
def DataFrame.columns (tbl : DataFrame) : List String :=
  tbl.cols.map Prod.fst

/-- `tbl[col]`: the values of a column (empty for an absent column; only
consulted after validation has established presence). -/
def DataFrame.getCol (tbl : DataFrame) (c : String) : List (Option ℚ) :=
  match tbl.cols.find? (fun p => p.fst == c) with
  | some p => p.snd
  | none => []

/-- A Python `str | list[str]` parameter. -/
inductive StrOrList where
  | scalar (s : String)
  | vec (l : List String)
deriving DecidableEq

/-- The parameters of `sparkline_point_js` (lines 13-35), with the
Python defaults. -/
structure Args where
  tbl : DataFrame
  x : StrOrList
  type : String := "cell"
  x_lower : Option StrOrList := none
  x_upper : Option StrOrList := none
  xlim : Option (ℚ × ℚ) := none
  xlab : String := ""
  y : Option (List ℚ) := none
  vline : Option ℚ := none
  text : Option StrOrList := none
  height : ℚ := 30
  width : ℚ := 150
  color : StrOrList := .scalar "#FFD700"
  color_errorbar : Option StrOrList := none
  color_vline : String := "#00000050"
  legend : Bool := false
  legend_label : Option (List String) := none
  legend_title : String := ""
  legend_position : ℚ := 0
  legend_type : String := "point"
  margin : Option (List Int) := none

/-! ## Parameter normalization (lines 90-116) -/

/-- Line 101-102: a scalar `x` is wrapped into a one-element list. -/
def xList (a : Args) : List String :=
  match a.x with
  | .scalar s => [s]
  | .vec l => l

/-- Line 104-105: a scalar color is broadcast to `len(x)` copies. -/
def colorsB (a : Args) : List String :=
  match a.color with
  | .scalar s => List.replicate (xList a).length s
  | .vec l => l

/-- Line 97-98: `color_errorbar` defaults to the (original) `color`. -/
def colorEbInput (a : Args) : StrOrList :=
  a.color_errorbar.getD a.color

/-- Line 107-108: a scalar error-bar color is broadcast to `len(x)` copies. -/
def colorsEbB (a : Args) : List String :=
  match colorEbInput a with
  | .scalar s => List.replicate (xList a).length s
  | .vec l => l

/-- Line 110-111: `y` defaults to `[1, ..., len(x)]`. -/
def ysB (a : Args) : List ℚ :=
  match a.y with
  | some l => l
  | none => (List.range (xList a).length).map (fun i => (i : ℚ) + 1)

/-- Lines 113-116: hover text defaults to a quoted empty string per series;
a scalar is broadcast. -/
def textsB (a : Args) : List String :=
  match a.text with
  | none => List.replicate (xList a).length "\"\""
  | some (.scalar s) => List.replicate (xList a).length s
  | some (.vec l) => l

/-- Lines 91-92: the margin default is the FIVE-element box
`[bottom, left, top, right, padding] = [0, 0, 0, 0, 0]`. -/
def marginB (a : Args) : List Int :=
  a.margin.getD [0, 0, 0, 0, 0]

/-- Lines 94-95: `x_upper` defaults to `x_lower`. -/
def xUpperEff (a : Args) : Option StrOrList :=
  match a.x_upper with
  | none => a.x_lower
  | some u => some u

/-- Lines 124-125: broadcast of a scalar bound-column parameter. -/
def broadcastCols (n : Nat) : StrOrList → List String
  | .scalar s => List.replicate n s
  | .vec l => l

/-- The lower-bound column list after broadcasting (`none` when omitted). -/
def lowerList (a : Args) : Option (List String) :=
  a.x_lower.map (broadcastCols (xList a).length)

/-- The effective upper-bound column list after defaulting and
broadcasting (`none` when both bounds are omitted). -/
def upperList (a : Args) : Option (List String) :=
  (xUpperEff a).map (broadcastCols (xList a).length)

/-! ## Column validation (lines 118-135) -/

/-- The error raised by the engine.  The Python code raises
`ValueError(f"Column ... not found in DataFrame")`; the specification
names it `MissingColumnError`, carrying the offending column name. -/
inductive GenError where
  | missingColumn (col : String)
deriving DecidableEq

/-- One sequential validation loop: the first column absent from the
schema, in list order. -/
def checkCols (schema : List String) : List String → Option String
  | [] => none
  | c :: rest => if schema.contains c then checkCols schema rest else some c

/-- All referenced columns in declaration (checking) order: value columns,
then lower-bound columns, then effective upper-bound columns. -/
def referencedCols (a : Args) : List String :=
  xList a ++ ((lowerList a).getD []) ++ ((upperList a).getD [])

/-- Lines 118-135: sequential validation; the three loops run in order. -/
def validate (a : Args) : Option String :=
  match checkCols a.tbl.columns (xList a) with
  | some c => some c
  | none =>
    match checkCols a.tbl.columns ((lowerList a).getD []) with
    | some c => some c
    | none => checkCols a.tbl.columns ((upperList a).getD [])

/-! ## Derived rendering values (lines 166-219) -/

/-- `cell.row["col"]` reference text. -/
def cellRef (col : String) : String :=
  "cell.row[\"" ++ col ++ "\"]"

/-- Lines 167-170: x positions; in non-cell mode the positions are the
indices of the broadcast COLOR list, not of the value-column list. -/
def jsX (a : Args) : String :=
  if a.type == "cell" then
    String.intercalate ", " ((xList a).map cellRef)
  else
    String.intercalate ", " ((List.range (colorsB a).length).map (fun i => toString i))

/-- Line 174: the error-bar defaulting condition:
`x_lower is None or type in ("footer", "header")`. -/
def errBarBranch (a : Args) : Bool :=
  a.x_lower.isNone || a.type == "footer" || a.type == "header"

/-- Lines 174-180: the substituted lower error-bar lengths. -/
def jsXLower (a : Args) : String :=
  if errBarBranch a then "0"
  else String.intercalate ", " (((lowerList a).getD []).map cellRef)

/-- Lines 174-180: the substituted upper error-bar lengths. -/
def jsXUpper (a : Args) : String :=
  if errBarBranch a then "0"
  else String.intercalate ", " (((upperList a).getD []).map cellRef)

/-- Line 177: in the defaulting branch every error-bar color is replaced
by the fully transparent `"#FFFFFF00"`. -/
def colorsEbFinal (a : Args) : List String :=
  if errBarBranch a then List.replicate (xList a).length "#FFFFFF00"
  else colorsEbB a

/-- Minimum of a list of rationals (Python `min`). -/
def listMin : List ℚ → Option ℚ
  | [] => none
  | q :: rest =>
    some (match listMin rest with
          | none => q
          | some m => min q m)

/-- Maximum of a list of rationals (Python `max`). -/
def listMax : List ℚ → Option ℚ
  | [] => none
  | q :: rest =>
    some (match listMax rest with
          | none => q
          | some m => max q m)

/-- Lines 184-187: all non-null values of the referenced value columns,
in column order. -/
def collectVals (a : Args) : List ℚ :=
  (xList a).flatMap (fun col => (a.tbl.getCol col).filterMap id)

/-- Lines 182-191: the effective axis range. -/
def xlimEff (a : Args) : ℚ × ℚ :=
  match a.xlim with
  | some p => p
  | none =>
    match listMin (collectVals a), listMax (collectVals a) with
    | some lo, some hi => (lo - 1/2, hi + 1/2)
    | _, _ => (0, 1)

/-- Abstraction of Python numeric-to-text rendering (`str(v)`); no claim
inspects the rendered digits, only the rational values themselves. -/
def numStr (q : ℚ) : String := toString q

def jsY (a : Args) : String :=
  String.intercalate ", " ((ysB a).map numStr)

def jsXRange (a : Args) : String :=
  numStr (xlimEff a).1 ++ ", " ++ numStr (xlimEff a).2

/-- Line 194: the vertical range is `[0, len(x) + 1]`. -/
def jsYRange (a : Args) : String :=
  "0, " ++ toString ((xList a).length + 1)

def jsText (a : Args) : String :=
  String.intercalate ", " (textsB a)

def jsVline (a : Args) : String :=
  match a.vline with
  | some v => numStr v
  | none => "[]"

def jsColor (a : Args) : String :=
  String.intercalate ", " ((colorsB a).map to_rgba)

def jsColorErrorbar (a : Args) : String :=
  String.intercalate ", " ((colorsEbFinal a).map to_rgba)

def jsColorVline (a : Args) : String :=
  to_rgba a.color_vline

def jsShowlegend (a : Args) : String :=
  if a.legend then "true" else "false"

/-- Lines 211-216: the legend-style lookup with default `"markers"`. -/
def jsLegendType (a : Args) : String :=
  if a.legend_type == "point" then "markers"
  else if a.legend_type == "line" then "lines"
  else if a.legend_type == "point+line" then "markers+lines"
  else "markers"

/-- Line 218: quoted legend labels, empty for a missing or empty list. -/
def jsLegendLabel (a : Args) : String :=
  match a.legend_label with
  | none => ""
  | some l =>
    if l.isEmpty then ""
    else String.intercalate ", " (l.map (fun lab => "\"" ++ lab ++ "\""))

def jsMargin (a : Args) : String :=
  String.intercalate ", " ((marginB a).map (fun i => toString i))

/-! ## Trace assembly (lines 221-254) -/

/-- Lines 224-251: the trace text for series index `i` (the Python
f-string, with `\x7b`/`\x7d` denoting literal braces). -/
def traceFor (jlt : String) (i : Nat) : String :=
  let n := toString i
  "\x7b\n        \"x\": [x[" ++ n ++ "]],\n        \"y\": [y[" ++ n ++
  "]],\n        \"error_x\": \x7b\n            type: \"data\",\n            symmetric: false,\n            array: [x_upper[" ++
  n ++ "]],\n            arrayminus: [x_lower[" ++ n ++
  "]],\n            \"color\": color_errorbar[" ++ n ++
  "]\n        \x7d,\n        \"text\": text[" ++ n ++
  "],\n        \"hoverinfo\": \"text\",\n        \"mode\": \"" ++ jlt ++
  "\",\n        \"alpha_stroke\": 1,\n        \"sizes\": [10, 100],\n        \"spans\": [1, 20],\n        \"type\": \"scatter\",\n        \"name\": legend_label[" ++
  n ++ "],\n        \"marker\": \x7b\n            \"color\": [color[" ++ n ++
  "]],\n            \"line\": \x7b\n                \"color\": color[" ++ n ++
  "]\n            \x7d\n        \x7d,\n        \"line\": \x7b\n            \"color\": color[" ++
  n ++ "]\n        \x7d\n    \x7d"

/-- Lines 222-252: one trace per value column, in index order. -/
def dataTraces (a : Args) : List String :=
  (List.range (xList a).length).map (traceFor (jsLegendType a))

/-- Line 254: the joined trace block. -/
def dataTrace (a : Args) : String :=
  String.intercalate ",\n      " (dataTraces a)

/-! ## Code emission (lines 256-287) -/

/-- A piece of the template: literal text or a `$name` placeholder. -/
inductive Chunk where
  | lit (s : String)
  | ph (name : String)
deriving DecidableEq

/-- Modelled from the spec: the template file `sparkline.js` is not under
the sources; per the specification it is a fixed code text whose named
placeholders are exactly the substitution names supplied at lines
264-285, instantiated per call by safe (partial) substitution. -/
def sparklineTemplate : List Chunk := [
  .lit "function(cell, state) \x7b\n  const x = [",
  .ph "js_x",
  .lit "];\n  const y = [",
  .ph "js_y",
  .lit "];\n  const x_lower = [",
  .ph "js_x_lower",
  .lit "];\n  const x_upper = [",
  .ph "js_x_upper",
  .lit "];\n  const text = [",
  .ph "js_text",
  .lit "];\n  const color = [",
  .ph "js_color",
  .lit "];\n  const color_errorbar = [",
  .ph "js_color_errorbar",
  .lit "];\n  const legend_label = [",
  .ph "js_legend_label",
  .lit "];\n  const data = [\n      ",
  .ph "data_trace",
  .lit "\n  ];\n  const layout = \x7b\n    xaxis: \x7b range: [",
  .ph "js_x_range",
  .lit "], title: \"",
  .ph "js_xlab",
  .lit "\" \x7d,\n    yaxis: \x7b range: [",
  .ph "js_y_range",
  .lit "] \x7d,\n    vline: [",
  .ph "js_vline",
  .lit "],\n    vline_color: ",
  .ph "js_color_vline",
  .lit ",\n    height: ",
  .ph "js_height",
  .lit ",\n    width: ",
  .ph "js_width",
  .lit ",\n    margin: [",
  .ph "js_margin",
  .lit "],\n    showlegend: ",
  .ph "js_showlegend",
  .lit ",\n    legend: \x7b title: \"",
  .ph "js_legend_title",
  .lit "\", y: ",
  .ph "js_legend_position",
  .lit " \x7d\n  \x7d;\n  return React.createElement(Plotly, \x7b data: data, layout: layout \x7d);\n\x7d"
]

/-- Render one chunk under a substitution mapping; an unmatched
placeholder is left as `$name` (`Template.safe_substitute`). -/
def renderChunk (env : List (String × String)) : Chunk → String
  | .lit s => s
  | .ph n =>
    match env.find? (fun p => p.fst == n) with
    | some p => p.snd
    | none => "$" ++ n

/-- `Template.safe_substitute`: render every chunk and concatenate. -/
def substitute (tpl : List Chunk) (env : List (String × String)) : String :=
  match tpl with
  | [] => ""
  | c :: rest => renderChunk env c ++ substitute rest env

/-- Lines 264-285: the substitution mapping. -/
def envOf (a : Args) : List (String × String) := [
  ("js_x", jsX a),
  ("js_y", jsY a),
  ("js_x_lower", jsXLower a),
  ("js_x_upper", jsXUpper a),
  ("js_x_range", jsXRange a),
  ("js_y_range", jsYRange a),
  ("js_vline", jsVline a),
  ("js_height", numStr a.height),
  ("js_width", numStr a.width),
  ("js_color", jsColor a),
  ("js_color_errorbar", jsColorErrorbar a),
  ("js_color_vline", jsColorVline a),
  ("js_margin", jsMargin a),
  ("js_xlab", a.xlab),
  ("js_showlegend", jsShowlegend a),
  ("js_legend_title", a.legend_title),
  ("js_legend_position", numStr a.legend_position),
  ("js_legend_label", jsLegendLabel a),
  ("js_text", jsText a),
  ("data_trace", dataTrace a)
]

/-- Lines 13-287: the whole generation call.  Broadcasting (lines 90-116)
cannot fail; validation (lines 118-135) raises on the first absent
column; everything afterwards is pure derivation and substitution. -/
def sparkline_point_js (a : Args) : Except GenError String :=
  match validate a with
  | some c => Except.error (GenError.missingColumn c)
  | none => Except.ok (substitute sparklineTemplate (envOf a))

/-- Substring containment of strings. -/
def strContains (hay needle : String) : Prop :=
  ∃ pre post, hay = pre ++ needle ++ post

/-! ## Concrete requests used as counterexamples and witnesses -/

/-- One value column, a two-element color vector: a shape mismatch. -/
def C1ex : Args :=
  { tbl := ⟨[("v", [some 1])]⟩, x := .scalar "v", color := .vec ["red", "blue"] }

/-- One value column whose ONLY mismatched sequence is the two-element
legend-label list. -/
def C1wEx : Args :=
  { tbl := ⟨[("v", [some 1])]⟩, x := .scalar "v",
    legend_label := some ["a", "b"] }

/-- One present value column, one absent second value column. -/
def C2wEx : Args :=
  { tbl := ⟨[("v", [some 1])]⟩, x := .vec ["v", "missing"] }

/-- The value column exists but the lower-bound column does not. -/
def C3ex : Args :=
  { tbl := ⟨[("v", [some 1])]⟩, x := .scalar "v", x_lower := some (.scalar "nope") }

/-- A fully valid two-series request with bounds and legend labels. -/
def C3wEx : Args :=
  { tbl := ⟨[("value", [some (51/10), none]), ("err", [some (3/10), some (2/10)])]⟩,
    x := .vec ["value", "err"], x_lower := some (.scalar "err"),
    legend_label := some ["a", "b"] }

/-- The example dataset of the spec: values `[5.1, 4.9, 4.7]`, no range. -/
def C5ex : Args :=
  { tbl := ⟨[("value", [some (51/10), some (49/10), some (47/10)])]⟩,
    x := .scalar "value" }

/-- A non-cell render context that is neither "footer" nor "header",
with lower bounds configured. -/
def C6ex : Args :=
  { tbl := ⟨[("v", [some 1]), ("error", [some (1/2)])]⟩, x := .scalar "v",
    x_lower := some (.scalar "error"), type := "custom" }

/-- A footer-context request with lower bounds configured. -/
def C6wEx : Args :=
  { tbl := ⟨[("v", [some 1]), ("error", [some (1/2)])]⟩, x := .scalar "v",
    x_lower := some (.scalar "error"), type := "footer" }

/-- A request with margins unspecified. -/
def C7ex : Args :=
  { tbl := ⟨[("v", [some 1])]⟩, x := .scalar "v" }

/-- Lower bounds omitted, an upper bound naming an absent column. -/
def C9ex : Args :=
  { tbl := ⟨[("v", [some 1])]⟩, x := .scalar "v", x_upper := some (.scalar "u") }

/-- A two-column footer-context request with the default scalar color. -/
def C10ex : Args :=
  { tbl := ⟨[("v", [some 1]), ("w", [some 2])]⟩, x := .vec ["v", "w"],
    type := "footer" }

/-! ## String and list helper lemmas -/

theorem strDataAppend (s t : String) : (s ++ t).data = s.data ++ t.data := rfl

theorem strEqOfData {s t : String} (h : s.data = t.data) : s = t := by
  cases s; cases t; cases h; rfl

theorem strAppendAssoc (a b c : String) : a ++ b ++ c = a ++ (b ++ c) := by
  apply strEqOfData
  simp only [strDataAppend, List.append_assoc]

theorem strNeEmptyLeft (s t : String) (h : s.data ≠ []) : s ++ t ≠ "" := by
  intro he
  apply h
  have hd : (s ++ t).data = [] := by rw [he]
  rw [strDataAppend] at hd
  exact (List.append_eq_nil.mp hd).1

/-- Any chunk of a template occurs verbatim (rendered) in the
substitution output. -/
theorem substituteContains (tpl : List Chunk) (env : List (String × String))
    (c : Chunk) (h : c ∈ tpl) :
    strContains (substitute tpl env) (renderChunk env c) := by
  induction tpl with
  | nil => cases h
  | cons d rest ih =>
    rcases List.mem_cons.mp h with he | hm
    · subst he
      exact ⟨"", substitute rest env, rfl⟩
    · obtain ⟨pre, post, hsplit⟩ := ih hm
      refine ⟨renderChunk env d ++ pre, post, ?_⟩
      show renderChunk env d ++ substitute rest env = _
      rw [hsplit]
      apply strEqOfData
      simp only [strDataAppend, List.append_assoc]

/-- The sequential validation loop finds the first absent column. -/
theorem checkColsEqFind (schema : List String) (l : List String) :
    checkCols schema l = l.find? (fun c => !(schema.contains c)) := by
  induction l with
  | nil => rfl
  | cons c rest ih =>
    show (if schema.contains c then checkCols schema rest else some c) = _
    rw [List.find?_cons]
    cases h : schema.contains c
    · simp [h]
    · simp [h, ih]

/-- Validation is the first-absent search over all referenced columns in
declaration order: value columns, lower-bound columns, upper-bound columns. -/
theorem validateEqFind (a : Args) :
    validate a =
      (referencedCols a).find? (fun c => !(a.tbl.columns.contains c)) := by
  unfold validate referencedCols
  rw [List.find?_append, List.find?_append,
      ← checkColsEqFind, ← checkColsEqFind, ← checkColsEqFind]
  cases checkCols a.tbl.columns (xList a) <;>
    cases checkCols a.tbl.columns ((lowerList a).getD []) <;>
      simp [Option.or]

/-- When every referenced column is present, validation passes. -/
theorem validateNone (a : Args)
    (h : ∀ c ∈ referencedCols a, a.tbl.columns.contains c = true) :
    validate a = none := by
  rw [validateEqFind, List.find?_eq_none]
  intro x hx
  rw [h x hx]
  decide

/-! ## Claim C1 -/

/-- C1 counterexample: a request whose broadcast color sequence has
length 2 while there is a single value column.  Contrary to the claim,
generation does not raise any error during normalization — it succeeds. -/
theorem C1_counterexample :
    (colorsB C1ex).length ≠ (xList C1ex).length ∧
    sparkline_point_js C1ex = Except.ok (substitute sparklineTemplate (envOf C1ex)) := by
  exact ⟨by decide, rfl⟩

/-- C1 (amended): generation performs no shape validation at all; whenever
every referenced column exists, it succeeds even when a per-series sequence
(colors, error-bar colors, vertical offsets, hover text, legend labels)
has, after broadcasting, a length different from the number of value
columns. -/
theorem C1_no_shape_check (a : Args)
    (hcols : ∀ c ∈ referencedCols a, a.tbl.columns.contains c = true)
    (_hmismatch : (colorsB a).length ≠ (xList a).length ∨
      (colorsEbB a).length ≠ (xList a).length ∨
      (ysB a).length ≠ (xList a).length ∨
      (textsB a).length ≠ (xList a).length ∨
      (∃ l, a.legend_label = some l ∧ l.length ≠ (xList a).length)) :
    sparkline_point_js a = Except.ok (substitute sparklineTemplate (envOf a)) := by
  have hv : validate a = none := validateNone a hcols
  unfold sparkline_point_js
  rw [hv]

/-- C1 witness: the request `C1wEx`, whose only mismatched sequence is
the legend-label list, exercises the theorem. -/
theorem C1_no_shape_check_witness :
    sparkline_point_js C1wEx = Except.ok (substitute sparklineTemplate (envOf C1wEx)) :=
  C1_no_shape_check C1wEx (by decide)
    (Or.inr (Or.inr (Or.inr (Or.inr ⟨["a", "b"], rfl, by decide⟩))))

/-! ## Claim C2 -/

/-- C2: whenever some referenced column is absent from the schema,
generation fails with a `MissingColumnError` naming the column that
validation finds, and that column is exactly the FIRST absent one in
declaration order (value columns, then lower-bound columns, then
upper-bound columns). -/
theorem C2_missing_column_error (a : Args) (c : String)
    (hmem : c ∈ referencedCols a) (habs : a.tbl.columns.contains c = false) :
    (validate a).isSome = true ∧
    sparkline_point_js a =
      Except.error (GenError.missingColumn ((validate a).getD c)) ∧
    (referencedCols a).find? (fun col => !(a.tbl.columns.contains col)) =
      some ((validate a).getD c) := by
  have hsome : ((referencedCols a).find?
      (fun col => !(a.tbl.columns.contains col))).isSome := by
    rw [List.find?_isSome]
    exact ⟨c, hmem, by rw [habs]; rfl⟩
  obtain ⟨cf, hcf⟩ := Option.isSome_iff_exists.mp hsome
  have hv : validate a = some cf := by rw [validateEqFind, hcf]
  refine ⟨by rw [hv]; rfl, ?_, ?_⟩
  · unfold sparkline_point_js
    rw [hv]
    rfl
  · rw [hv, hcf]
    rfl

/-- C2 witness: the second value column of `C2wEx` is absent. -/
theorem C2_missing_column_error_witness :
    (validate C2wEx).isSome = true ∧
    sparkline_point_js C2wEx =
      Except.error (GenError.missingColumn ((validate C2wEx).getD "missing")) ∧
    (referencedCols C2wEx).find? (fun col => !(C2wEx.tbl.columns.contains col)) =
      some ((validate C2wEx).getD "missing") :=
  C2_missing_column_error C2wEx "missing" (by decide) (by decide)

/-! ## Claim C3 -/

/-- C3 counterexample: every VALUE column of `C3ex` exists in the schema,
yet generation does not return a string — it fails, because the
lower-bound column is absent.  The claim needs all referenced columns
(value, lower-bound, upper-bound) to exist, not only the value columns. -/
theorem C3_counterexample :
    (∀ c ∈ xList C3ex, C3ex.tbl.columns.contains c = true) ∧
    sparkline_point_js C3ex = Except.error (GenError.missingColumn "nope") := by
  exact ⟨by decide, rfl⟩

/-- C3 (amended): when every referenced column (value, lower-bound,
upper-bound) exists in the schema, generation returns a non-empty string
that contains the trace block, and the trace block holds exactly one
trace structure per value column, emitted in value-column order. -/
theorem C3_trace_per_column (a : Args)
    (hcols : ∀ c ∈ referencedCols a, a.tbl.columns.contains c = true) :
    sparkline_point_js a = Except.ok (substitute sparklineTemplate (envOf a)) ∧
    substitute sparklineTemplate (envOf a) ≠ "" ∧
    strContains (substitute sparklineTemplate (envOf a)) (dataTrace a) ∧
    (dataTraces a).length = (xList a).length ∧
    ∀ i (hi : i < (dataTraces a).length),
      (dataTraces a)[i] = traceFor (jsLegendType a) i := by
  have hv : validate a = none := validateNone a hcols
  refine ⟨?_, ?_, ?_, ?_, ?_⟩
  · unfold sparkline_point_js
    rw [hv]
  · have he : substitute sparklineTemplate (envOf a) =
        "function(cell, state) \x7b\n  const x = [" ++
          substitute (List.tail sparklineTemplate) (envOf a) := rfl
    rw [he]
    exact strNeEmptyLeft _ _ (by decide)
  · have hmem : Chunk.ph "data_trace" ∈ sparklineTemplate := by decide
    have hr : renderChunk (envOf a) (Chunk.ph "data_trace") = dataTrace a := rfl
    have hc := substituteContains sparklineTemplate (envOf a) _ hmem
    rw [hr] at hc
    exact hc
  · simp [dataTraces]
  · intro i hi
    simp [dataTraces]

/-- C3 witness: the fully valid two-series request `C3wEx`. -/
theorem C3_trace_per_column_witness :
    sparkline_point_js C3wEx = Except.ok (substitute sparklineTemplate (envOf C3wEx)) ∧
    substitute sparklineTemplate (envOf C3wEx) ≠ "" ∧
    strContains (substitute sparklineTemplate (envOf C3wEx)) (dataTrace C3wEx) ∧
    (dataTraces C3wEx).length = (xList C3wEx).length := by
  have h := C3_trace_per_column C3wEx (by decide)
  exact ⟨h.1, h.2.1, h.2.2.1, h.2.2.2.1⟩

/-! ## Claim C4 -/

theorem hexNotWs {c : Char} (h : isHexDigit c = true) : isPyWs c = false := by
  unfold isHexDigit at h
  unfold isPyWs
  simp only [Bool.or_eq_true, Bool.and_eq_true, decide_eq_true_eq] at h
  simp only [Bool.or_eq_false_iff, decide_eq_false_iff_not]
  omega

theorem dropWhileEqSelf {p : Char → Bool} {l : List Char}
    (h : ∀ c ∈ l, p c = false) : l.dropWhile p = l := by
  cases l with
  | nil => rfl
  | cons a t =>
    rw [List.dropWhile_cons]
    simp [h a (List.mem_cons_self a t)]

theorem pyStripLEqSelf {l : List Char} (h : ∀ c ∈ l, isPyWs c = false) :
    pyStripL l = l := by
  unfold pyStripL
  rw [dropWhileEqSelf h, dropWhileEqSelf, List.reverse_reverse]
  intro c hc
  exact h c (List.mem_reverse.mp hc)

theorem hexParseLenNe6 : ∀ {l : List Char}, l.length ≠ 6 → hexParse l = none
  | [], _ => rfl
  | [_], _ => rfl
  | [_, _], _ => rfl
  | [_, _, _], _ => rfl
  | [_, _, _, _], _ => rfl
  | [_, _, _, _, _], _ => rfl
  | [_, _, _, _, _, _], h => absurd rfl h
  | _ :: _ :: _ :: _ :: _ :: _ :: _ :: _, _ => rfl

/-- `color_str.lower()` of a string starting with the hash marker never
begins with `rgb`. -/
theorem rgbTestHash (t : List Char) : rgbTest ('#' :: t) = false := by
  unfold rgbTest pyLowerL
  simp only [List.map_cons]
  have hl : Char.toLower '#' = '#' := by decide
  rw [hl]
  cases t with
  | nil => rfl
  | cons b u =>
    cases u with
    | nil => rfl
    | cons c v => rfl

theorem toListMk (l : List Char) : (String.mk l).toList = l := rfl

/-- Unfolding of `to_rgba` (lines 138-164) used by the color theorems. -/
theorem to_rgbaEq (name : String) :
    to_rgba name =
      match hexTry (pyStripL name.toList) with
      | some s => s
      | none =>
        if rgbTest (pyStripL name.toList) then
          "\"" ++ String.mk (pyStripL name.toList) ++ "\""
        else "\"" ++ name ++ "\"" := rfl

theorem pyInt16twoHex {a b : Char} (ha : isHexDigit a = true)
    (hb : isHexDigit b = true) :
    pyInt16two a b = some (16 * (hexVal a : Int) + hexVal b) := by
  unfold pyInt16two
  rw [ha, hb]
  rfl

theorem hexParseSix (a b c d e f : Char) :
    hexParse [a, b, c, d, e, f] =
      match pyInt16two a b, pyInt16two c d, pyInt16two e f with
      | some r, some g, some bl => some (r, g, bl)
      | _, _, _ => none := rfl

theorem hexTryHash (t : List Char) :
    hexTry ('#' :: t) =
      match hexParse (dup3 t) with
      | some (r, g, b) =>
        some ("\"rgba(" ++ toString r ++ ", " ++ toString g ++ ", " ++
              toString b ++ ", 1)\"")
      | none => none := rfl

/-- C4: the hex branch of the color translator.
1. a `#`-led descriptor of three hex digits is translated exactly like the
   six-digit descriptor obtained by doubling each digit;
2. a `#`-led descriptor of exactly six hex digits is translated to the
   quoted literal `rgba(r, g, b, 1)` with the two-digit groups parsed as
   red, green, blue;
3. when the remaining digit count is neither three nor six, or the
   two-digit group parse fails, the descriptor falls through to quoted
   passthrough (stated for ASCII descriptors without surrounding
   whitespace, the domain on which the character-level model is faithful);
4. `#FFD700` yields `rgba(255, 215, 0, 1)`;
5. `#ABC` yields the same result as `#AABBCC`. -/
theorem C4_hex_color_translation :
    (∀ a b c : Char, isHexDigit a = true → isHexDigit b = true →
      isHexDigit c = true →
      to_rgba (String.mk ['#', a, b, c]) =
        to_rgba (String.mk ['#', a, a, b, b, c, c])) ∧
    (∀ a b c d e f : Char, isHexDigit a = true → isHexDigit b = true →
      isHexDigit c = true → isHexDigit d = true → isHexDigit e = true →
      isHexDigit f = true →
      to_rgba (String.mk ['#', a, b, c, d, e, f]) =
        "\"rgba(" ++ toString (16 * (hexVal a : Int) + hexVal b) ++ ", " ++
        toString (16 * (hexVal c : Int) + hexVal d) ++ ", " ++
        toString (16 * (hexVal e : Int) + hexVal f) ++ ", 1)\"") ∧
    (∀ hex0 : List Char, (∀ c ∈ hex0, c.toNat < 128) →
      pyStripL ('#' :: hex0) = '#' :: hex0 →
      ((hex0.length ≠ 3 ∧ hex0.length ≠ 6) ∨ hexParse (dup3 hex0) = none) →
      to_rgba (String.mk ('#' :: hex0)) =
        "\"" ++ String.mk ('#' :: hex0) ++ "\"") ∧
    to_rgba "#FFD700" = "\"rgba(255, 215, 0, 1)\"" ∧
    to_rgba "#ABC" = to_rgba "#AABBCC" := by
  refine ⟨?_, ?_, ?_, by decide, by decide⟩
  · intro a b c ha hb hc
    have hstrip1 : pyStripL ['#', a, b, c] = ['#', a, b, c] := by
      apply pyStripLEqSelf
      intro ch hch
      simp only [List.mem_cons, List.not_mem_nil, or_false] at hch
      rcases hch with rfl | rfl | rfl | rfl
      · decide
      · exact hexNotWs ha
      · exact hexNotWs hb
      · exact hexNotWs hc
    have hstrip2 : pyStripL ['#', a, a, b, b, c, c] = ['#', a, a, b, b, c, c] := by
      apply pyStripLEqSelf
      intro ch hch
      simp only [List.mem_cons, List.not_mem_nil, or_false] at hch
      rcases hch with rfl | rfl | rfl | rfl | rfl | rfl | rfl
      · decide
      all_goals first
        | exact hexNotWs ha
        | exact hexNotWs hb
        | exact hexNotWs hc
    have hp : hexParse [a, a, b, b, c, c] =
        some (16 * (hexVal a : Int) + hexVal a,
              16 * (hexVal b : Int) + hexVal b,
              16 * (hexVal c : Int) + hexVal c) := by
      rw [hexParseSix, pyInt16twoHex ha ha, pyInt16twoHex hb hb,
          pyInt16twoHex hc hc]
    rw [to_rgbaEq, to_rgbaEq, toListMk, toListMk, hstrip1, hstrip2,
        hexTryHash, hexTryHash,
        show dup3 [a, b, c] = [a, a, b, b, c, c] from rfl,
        show dup3 [a, a, b, b, c, c] = [a, a, b, b, c, c] from rfl, hp]
  · intro a b c d e f ha hb hc hd he hf
    have hstrip : pyStripL ['#', a, b, c, d, e, f] = ['#', a, b, c, d, e, f] := by
      apply pyStripLEqSelf
      intro ch hch
      simp only [List.mem_cons, List.not_mem_nil, or_false] at hch
      rcases hch with rfl | rfl | rfl | rfl | rfl | rfl | rfl
      · decide
      all_goals first
        | exact hexNotWs ha
        | exact hexNotWs hb
        | exact hexNotWs hc
        | exact hexNotWs hd
        | exact hexNotWs he
        | exact hexNotWs hf
    rw [to_rgbaEq, toListMk, hstrip, hexTryHash,
        show dup3 [a, b, c, d, e, f] = [a, b, c, d, e, f] from rfl,
        hexParseSix, pyInt16twoHex ha hb, pyInt16twoHex hc hd,
        pyInt16twoHex he hf]
  · intro hex0 _hascii hstrip hcond
    have hparse : hexParse (dup3 hex0) = none := by
      rcases hcond with ⟨h3, h6⟩ | hp
      · have hid : dup3 hex0 = hex0 := by
          unfold dup3
          rw [if_neg h3]
        rw [hid]
        exact hexParseLenNe6 h6
      · exact hp
    rw [to_rgbaEq, toListMk, hstrip, hexTryHash, hparse, rgbTestHash]
    rfl

/-- C4 witness: the three universal clauses exercised at `#123`, at
`#00FF00`, and at the two-digit descriptor `#12`. -/
theorem C4_hex_color_translation_witness :
    to_rgba "#123" = to_rgba "#112233" ∧
    to_rgba (String.mk ['#', '0', '0', 'F', 'F', '0', '0']) =
      "\"rgba(" ++ toString (16 * (hexVal '0' : Int) + hexVal '0') ++ ", " ++
      toString (16 * (hexVal 'F' : Int) + hexVal 'F') ++ ", " ++
      toString (16 * (hexVal '0' : Int) + hexVal '0') ++ ", 1)\"" ∧
    to_rgba "#12" = "\"#12\"" := by
  refine ⟨?_, ?_, ?_⟩
  · have h := C4_hex_color_translation.1 '1' '2' '3' (by decide) (by decide) (by decide)
    rw [show String.mk ['#', '1', '2', '3'] = "#123" from by decide,
        show String.mk ['#', '1', '1', '2', '2', '3', '3'] = "#112233" from by decide] at h
    exact h
  · exact C4_hex_color_translation.2.1 '0' '0' 'F' 'F' '0' '0'
      (by decide) (by decide) (by decide) (by decide) (by decide) (by decide)
  · have h := C4_hex_color_translation.2.2.1 ['1', '2'] (by decide) (by decide)
      (Or.inl ⟨by decide, by decide⟩)
    rw [show String.mk ['#', '1', '2'] = "#12" from by decide] at h
    rw [h]
    decide

/-! ## Claim C5 -/

theorem listMinSpec : ∀ {l : List ℚ} {q : ℚ}, listMin l = some q →
    q ∈ l ∧ ∀ x ∈ l, q ≤ x := by
  intro l
  induction l with
  | nil => intro q h; cases h
  | cons a t ih =>
    intro q h
    cases ht : listMin t with
    | none =>
      have hte : t = [] := by
        cases t with
        | nil => rfl
        | cons b u => rw [listMin] at ht; cases ht
      subst hte
      have hq : a = q := Option.some.inj h
      subst hq
      refine ⟨List.mem_singleton_self a, ?_⟩
      intro x hx
      rcases List.mem_singleton.mp hx with rfl
      exact le_refl x
    | some m =>
      obtain ⟨hmem, hbnd⟩ := ih ht
      have hq : min a m = q := by
        rw [listMin, ht] at h
        exact Option.some.inj h
      subst hq
      constructor
      · rcases le_total a m with hh | hh
        · rw [min_eq_left hh]
          exact List.mem_cons_self a t
        · rw [min_eq_right hh]
          exact List.mem_cons_of_mem a hmem
      · intro x hx
        rcases List.mem_cons.mp hx with rfl | hx2
        · exact min_le_left _ _
        · exact le_trans (min_le_right _ _) (hbnd x hx2)

theorem listMaxSpec : ∀ {l : List ℚ} {q : ℚ}, listMax l = some q →
    q ∈ l ∧ ∀ x ∈ l, x ≤ q := by
  intro l
  induction l with
  | nil => intro q h; cases h
  | cons a t ih =>
    intro q h
    cases ht : listMax t with
    | none =>
      have hte : t = [] := by
        cases t with
        | nil => rfl
        | cons b u => rw [listMax] at ht; cases ht
      subst hte
      have hq : a = q := Option.some.inj h
      subst hq
      refine ⟨List.mem_singleton_self a, ?_⟩
      intro x hx
      rcases List.mem_singleton.mp hx with rfl
      exact le_refl x
    | some m =>
      obtain ⟨hmem, hbnd⟩ := ih ht
      have hq : max a m = q := by
        rw [listMax, ht] at h
        exact Option.some.inj h
      subst hq
      constructor
      · rcases le_total a m with hh | hh
        · rw [max_eq_right hh]
          exact List.mem_cons_of_mem a hmem
        · rw [max_eq_left hh]
          exact List.mem_cons_self a t
      · intro x hx
        rcases List.mem_cons.mp hx with rfl | hx2
        · exact le_max_left _ _
        · exact le_trans (hbnd x hx2) (le_max_right _ _)

/-- C5: without an explicit range, the derived range is
`[min - 0.5, max + 0.5]` over all non-null values of the referenced value
columns, and `[0, 1]` when no non-null values exist. -/
theorem C5_range_inference (a : Args) (h : a.xlim = none) :
    (collectVals a = [] → xlimEff a = (0, 1)) ∧
    (∀ m M : ℚ, m ∈ collectVals a → M ∈ collectVals a →
      (∀ v ∈ collectVals a, m ≤ v ∧ v ≤ M) →
      xlimEff a = (m - 1/2, M + 1/2)) := by
  constructor
  · intro hempty
    unfold xlimEff
    rw [h, hempty]
    rfl
  · intro m M hm hM hbnd
    obtain ⟨lo, hlo⟩ : ∃ lo, listMin (collectVals a) = some lo := by
      cases hc : collectVals a with
      | nil => rw [hc] at hm; cases hm
      | cons b u => exact ⟨_, by rw [listMin]⟩
    obtain ⟨hi, hhi⟩ : ∃ hi, listMax (collectVals a) = some hi := by
      cases hc : collectVals a with
      | nil => rw [hc] at hm; cases hm
      | cons b u => exact ⟨_, by rw [listMax]⟩
    obtain ⟨hlomem, hlobnd⟩ := listMinSpec hlo
    obtain ⟨himem, hibnd⟩ := listMaxSpec hhi
    have hlom : lo = m := le_antisymm (hlobnd m hm) (hbnd lo hlomem).1
    have hhiM : hi = M := le_antisymm (hbnd hi himem).2 (hibnd M hM)
    unfold xlimEff
    rw [h, hlo, hhi, hlom, hhiM]

/-- C5 witness: the spec example, values `[5.1, 4.9, 4.7]`, yields the
range `[4.2, 5.6]`. -/
theorem C5_range_inference_witness : xlimEff C5ex = (21/5, 28/5) := by
  have hcol : collectVals C5ex = [(51 : ℚ)/10, 49/10, 47/10] := rfl
  have h := (C5_range_inference C5ex rfl).2 (47/10) (51/10)
    (by
      rw [hcol]
      exact List.mem_cons_of_mem _ (List.mem_cons_of_mem _ (List.mem_cons_self _ _)))
    (by
      rw [hcol]
      exact List.mem_cons_self _ _)
    (by
      rw [hcol]
      intro v hv
      rcases List.mem_cons.mp hv with rfl | hv
      · refine ⟨by norm_num, by norm_num⟩
      rcases List.mem_cons.mp hv with rfl | hv
      · refine ⟨by norm_num, by norm_num⟩
      rcases List.mem_cons.mp hv with rfl | hv
      · refine ⟨by norm_num, by norm_num⟩
      cases hv)
  rw [h]
  rw [Prod.ext_iff]
  refine ⟨by norm_num, by norm_num⟩

/-! ## Claim C6 -/

/-- C6 counterexample: the render context type "custom" is not "cell",
yet with lower bounds configured the emitted error bars are NOT
zero-length and the error-bar colors are NOT transparent — the code only
defaults them for the types "footer" and "header". -/
theorem C6_counterexample :
    C6ex.type ≠ "cell" ∧
    jsXLower C6ex = cellRef "error" ∧
    jsXLower C6ex ≠ "0" ∧
    colorsEbFinal C6ex = ["#FFD700"] := by
  refine ⟨by decide, by decide, by decide, by decide⟩

/-- C6 (amended): when no lower-bound columns are configured, or the
render context type is "footer" or "header" (the non-cell types the code
recognizes), the emitted error bars are zero-length and every series'
error-bar color is the fully transparent `#FFFFFF00`. -/
theorem C6_zero_error_bars (a : Args)
    (h : a.x_lower = none ∨ a.type = "footer" ∨ a.type = "header") :
    jsXLower a = "0" ∧ jsXUpper a = "0" ∧
    ∀ c ∈ colorsEbFinal a, c = "#FFFFFF00" := by
  have hbr : errBarBranch a = true := by
    unfold errBarBranch
    rcases h with h | h | h
    · rw [h]
      rfl
    · rw [h]
      simp
    · rw [h]
      simp
  refine ⟨?_, ?_, ?_⟩
  · unfold jsXLower
    rw [hbr]
    rfl
  · unfold jsXUpper
    rw [hbr]
    rfl
  · intro c hc
    unfold colorsEbFinal at hc
    rw [hbr] at hc
    simp only [if_true] at hc
    exact List.eq_of_mem_replicate hc

/-- C6 witness: a footer-context request with bounds configured. -/
theorem C6_zero_error_bars_witness :
    jsXLower C6wEx = "0" ∧ jsXUpper C6wEx = "0" ∧
    ∀ c ∈ colorsEbFinal C6wEx, c = "#FFFFFF00" :=
  C6_zero_error_bars C6wEx (Or.inr (Or.inl rfl))

/-! ## Claim C7 -/

/-- C7 counterexample: with margins unspecified the normalized margin
value is the FIVE-element `[0, 0, 0, 0, 0]`
(bottom, left, top, right, padding), not a four-element box. -/
theorem C7_counterexample :
    C7ex.margin = none ∧
    marginB C7ex ≠ [0, 0, 0, 0] ∧
    marginB C7ex = [0, 0, 0, 0, 0] := by
  refine ⟨rfl, by decide, by decide⟩

/-- C7 (amended): when margins are unspecified, the normalized margin
value is the five-element all-zero box `[bottom, left, top, right,
padding]`, emitted as `0, 0, 0, 0, 0`. -/
theorem C7_margin_default (a : Args) (h : a.margin = none) :
    marginB a = [0, 0, 0, 0, 0] ∧
    (marginB a).length = 5 ∧
    jsMargin a = "0, 0, 0, 0, 0" := by
  have hm : marginB a = [0, 0, 0, 0, 0] := by
    unfold marginB
    rw [h]
    rfl
  refine ⟨hm, by rw [hm]; rfl, ?_⟩
  unfold jsMargin
  rw [hm]
  rfl

/-- C7 witness: the request `C7ex` leaves margins unspecified. -/
theorem C7_margin_default_witness :
    marginB C7ex = [0, 0, 0, 0, 0] ∧
    (marginB C7ex).length = 5 ∧
    jsMargin C7ex = "0, 0, 0, 0, 0" :=
  C7_margin_default C7ex rfl

/-! ## Claim C8 -/

/-- C8 counterexample: a descriptor with trailing whitespace whose
lowercase form starts with `rgb` is re-quoted WITHOUT the surrounding
whitespace, contradicting the claim that the original text is preserved
unchanged except for quotes. -/
theorem C8_counterexample :
    to_rgba "rgb(1,2,3) " = "\"rgb(1,2,3)\"" ∧
    to_rgba "rgb(1,2,3) " ≠ "\"rgb(1,2,3) \"" := by
  refine ⟨by decide, by decide⟩

theorem rgbTestHead {c : Char} {t : List Char}
    (h : rgbTest (c :: t) = true) : c.toLower = 'r' := by
  unfold rgbTest pyLowerL at h
  simp only [List.map_cons] at h
  cases ht : t.map Char.toLower with
  | nil => rw [ht] at h; cases h
  | cons b u =>
    cases u with
    | nil => rw [ht] at h; cases h
    | cons d v =>
      rw [ht] at h
      simp only [Bool.and_eq_true, beq_iff_eq] at h
      exact h.1.1

/-- C8 (amended): a descriptor whose stripped lowercase form starts with
`rgb` is passed through re-quoted, but as the whitespace-STRIPPED text
`color_str`, not the original descriptor: surrounding whitespace is
removed, not preserved.  (Stated for ASCII descriptors, the domain on
which the character-level model of `strip`/`lower` is faithful.) -/
theorem C8_rgb_requote (s : String)
    (_hascii : ∀ c ∈ s.toList, c.toNat < 128)
    (h : rgbTest (pyStripL s.toList) = true) :
    to_rgba s = "\"" ++ String.mk (pyStripL s.toList) ++ "\"" := by
  rw [to_rgbaEq]
  cases hcs : pyStripL s.toList with
  | nil => rw [hcs] at h; cases h
  | cons c t =>
    have hc : ¬(c = '#') := by
      intro he
      rw [hcs, he] at h
      have := rgbTestHead h
      rw [show Char.toLower '#' = '#' from by decide] at this
      cases this
    have hhex : hexTry (c :: t) = none := by
      show (if c = '#' then _ else none) = none
      rw [if_neg hc]
    rw [hhex]
    rw [hcs] at h
    rw [h]
    rfl

/-- C8 witness: an uppercase `RGB` descriptor with trailing whitespace. -/
theorem C8_rgb_requote_witness :
    to_rgba "RGB(9, 9, 9) " = "\"RGB(9, 9, 9)\"" := by
  have h := C8_rgb_requote "RGB(9, 9, 9) " (by decide) (by decide)
  rw [h]
  decide

/-! ## Claim C9 -/

/-- C9: when lower-bound columns are omitted but upper-bound columns are
supplied, the upper-bound columns are still validated: if the value
columns pass but an upper-bound column is the first absent one,
generation fails with the missing-column error naming it — even though,
with no lower bounds, the emitted error bars are zero-length. -/
theorem C9_upper_checked (a : Args) (hl : a.x_lower = none) :
    (∀ c : String, checkCols a.tbl.columns (xList a) = none →
      checkCols a.tbl.columns ((upperList a).getD []) = some c →
      sparkline_point_js a = Except.error (GenError.missingColumn c)) ∧
    jsXLower a = "0" ∧ jsXUpper a = "0" := by
  have hlow : (lowerList a).getD [] = [] := by
    unfold lowerList
    rw [hl]
    rfl
  refine ⟨?_, ?_, ?_⟩
  · intro c hx hu
    have hv : validate a = some c := by
      unfold validate
      rw [hx, hlow, hu]
      rfl
    unfold sparkline_point_js
    rw [hv]
  · unfold jsXLower errBarBranch
    rw [hl]
    rfl
  · unfold jsXUpper errBarBranch
    rw [hl]
    rfl

/-- C9 witness: `C9ex` omits lower bounds; its upper-bound column `u` is
absent and generation fails naming it. -/
theorem C9_upper_checked_witness :
    sparkline_point_js C9ex = Except.error (GenError.missingColumn "u") ∧
    jsXLower C9ex = "0" ∧ jsXUpper C9ex = "0" := by
  have h := C9_upper_checked C9ex rfl
  exact ⟨h.1 "u" (by decide) (by decide), h.2.1, h.2.2⟩

/-! ## Claim C10 -/

/-- C10: in a non-cell render context the emitted x positions are the
decimal indices `0 .. len(colors) - 1` of the BROADCAST COLOR sequence,
not of the value-column list, so the number of emitted positions equals
the number of value columns exactly when the color sequence has that
length. -/
theorem C10_noncell_positions (a : Args) (h : a.type ≠ "cell") :
    jsX a = String.intercalate ", "
      ((List.range (colorsB a).length).map (fun i => toString i)) ∧
    (((List.range (colorsB a).length).map (fun i => toString i)).length =
        (xList a).length ↔ (colorsB a).length = (xList a).length) := by
  constructor
  · unfold jsX
    rw [if_neg]
    simp only [beq_iff_eq]
    exact h
  · simp only [List.length_map, List.length_range]

/-- C10 witness: two value columns with the default scalar color give
two broadcast colors, hence positions `0, 1`. -/
theorem C10_noncell_positions_witness :
    jsX C10ex = "0, 1" ∧ (colorsB C10ex).length = (xList C10ex).length := by
  have h := C10_noncell_positions C10ex (by decide)
  refine ⟨?_, by decide⟩
  rw [h.1]
  decide

end PyForestly

